/-
Verification of the scraping/aggregation pipeline of the
`homework-3-web-scraping` repository (src/scrape_data.py, src/app.py).

The three pagination drivers, the aggregator and the dashboard helpers are
shallowly embedded as pure Lean functions.  HTTP responses are modelled as
values supplied by abstract fetch functions; the per-response structures hold
exactly the data the source's selectors extract from a response body (so the
BeautifulSoup / JSON parsing layer is the identity in the model).  Machine
floats are idealised as exact rationals: Python's `float(...)` string
acceptance grammar is embedded faithfully, its value exactly (no binary
rounding).  Character classes (digits, whitespace) are restricted to ASCII,
which covers every string the site and the dashboard produce.
-/
import Mathlib

set_option autoImplicit false

deriving instance DecidableEq for Except

/-! ### Character and string utilities (Python `str.strip`, digits) -/

/-- ASCII whitespace as stripped by Python's `str.strip()`. -/
def isPyWS (c : Char) : Bool :=
  c = ' ' || c = '\t' || c = '\n' || c = '\r' || c = Char.ofNat 11 || c = Char.ofNat 12

/-- Strip leading and trailing whitespace from a character list. -/
def trimChars (l : List Char) : List Char :=
  ((l.dropWhile isPyWS).reverse.dropWhile isPyWS).reverse

/-- Python `s.strip()` on strings. -/
def pyStrip (s : String) : String :=
  String.mk (trimChars s.data)

/-- Numeric value of a list of ASCII digit characters (most significant first). -/
def digitsToNat (l : List Char) : Nat :=
  l.foldl (fun a c => a * 10 + (c.toNat - 48)) 0

/-- Split a character list on a separator character (Python `str.split(sep)`). -/
def splitOnChar (c : Char) : List Char → List (List Char)
  | [] => [[]]
  | x :: xs =>
    if x = c then [] :: splitOnChar c xs
    else
      match splitOnChar c xs with
      | [] => [[x]]
      | g :: gs => (x :: g) :: gs

/-- Lower-case an ASCII letter (Python's case-insensitive matching). -/
def asciiLower (c : Char) : Char :=
  if 'A' ≤ c ∧ c ≤ 'Z' then Char.ofNat (c.toNat + 32) else c

/-! ### Calendar dates and `_parse_date` (strptime `%Y-%m-%d`) -/

/-- A calendar date as carried by Python's `datetime.date`. -/
structure Date where
  year : Nat
  month : Nat
  day : Nat
deriving Repr, DecidableEq

/-- Gregorian leap year (Python `calendar`/`datetime` rule). -/
def isLeapYear (y : Nat) : Bool :=
  (y % 4 = 0 && y % 100 ≠ 0) || y % 400 = 0

/-- Days in a month, as validated by the `datetime` constructor. -/
def daysInMonth (y m : Nat) : Nat :=
  if m = 2 then (if isLeapYear y then 29 else 28)
  else if m = 4 ∨ m = 6 ∨ m = 9 ∨ m = 11 then 30
  else 31

/-- The range checks performed by the `datetime.datetime` constructor. -/
def Date.validB (d : Date) : Bool :=
  decide (1 ≤ d.year ∧ d.year ≤ 9999 ∧ 1 ≤ d.month ∧ d.month ≤ 12 ∧
          1 ≤ d.day ∧ d.day ≤ daysInMonth d.year d.month)

/-- strptime `%Y` field: exactly four digits. -/
def yearField (l : List Char) : Option Nat :=
  if l.length = 4 ∧ l.all Char.isDigit = true then some (digitsToNat l) else none

/-- strptime `%m` field: `1[0-2]|0[1-9]|[1-9]`. -/
def monthField (l : List Char) : Option Nat :=
  if l ≠ [] ∧ l.length ≤ 2 ∧ l.all Char.isDigit = true ∧
     1 ≤ digitsToNat l ∧ digitsToNat l ≤ 12 then
    some (digitsToNat l)
  else none

/-- strptime `%d` field: `3[01]|[12]\d|0[1-9]|[1-9]| [1-9]` (note the
space-padded single digit alternative). -/
def dayField (l : List Char) : Option Nat :=
  match l with
  | [' ', c] => if '1' ≤ c ∧ c ≤ '9' then some (c.toNat - 48) else none
  | _ =>
    if l ≠ [] ∧ l.length ≤ 2 ∧ l.all Char.isDigit = true ∧
       1 ≤ digitsToNat l ∧ digitsToNat l ≤ 31 then
      some (digitsToNat l)
    else none

/-- Embeds `_parse_date` of src/scrape_data.py: `datetime.strptime(s.strip(),
"%Y-%m-%d")` wrapped in try/except, returning the date on success.  The
strptime pattern anchors the whole string; the `datetime` constructor then
validates the field ranges. -/
def parseYMD (s : String) : Option Date :=
  match splitOnChar '-' (trimChars s.data) with
  | [ys, ms, ds] =>
    match yearField ys, monthField ms, dayField ds with
    | some y, some m, some d =>
      if (Date.mk y m d).validB then some (Date.mk y m d) else none
    | _, _, _ => none
  | _ => none

/-- Zero-pad a number to two digits (`datetime.date.isoformat`). -/
def pad2 (n : Nat) : String :=
  if n < 10 then "0" ++ toString n else toString n

/-- Zero-pad a year to four digits (`datetime.date.isoformat`). -/
def pad4 (n : Nat) : String :=
  if n < 10 then "000" ++ toString n
  else if n < 100 then "00" ++ toString n
  else if n < 1000 then "0" ++ toString n
  else toString n

/-- `datetime.date.isoformat()`: the `YYYY-MM-DD` rendering of a date. -/
def Date.iso (d : Date) : String :=
  pad4 d.year ++ "-" ++ pad2 d.month ++ "-" ++ pad2 d.day

/-! ### Python `float(...)` on strings, used by the price cleaning -/

/-- The value domain of Python's `float(...)` applied to a string, with the
finite values idealised as exact rationals. -/
inductive PyFloat where
  | finite (q : Rat)
  | inf
  | neginf
  | nan
deriving Repr, DecidableEq

/-- A digit group as in Python float literals: digits with single underscores
strictly between digits (`\d(_?\d)*`).  `dgTail` checks the part after the
first digit. -/
def dgTail : List Char → Bool
  | [] => true
  | '_' :: c :: rest => c.isDigit && dgTail rest
  | c :: rest => c.isDigit && dgTail rest

/-- Whole digit-group check (nonempty, starts with a digit). -/
def dgOK : List Char → Bool
  | [] => false
  | c :: rest => c.isDigit && dgTail rest

/-- Remove the underscores of a digit group before reading its value. -/
def stripUnderscores (l : List Char) : List Char :=
  l.filter (fun c => c ≠ '_')

/-- Value of a digit group. -/
def digitsVal (l : List Char) : Nat :=
  digitsToNat (stripUnderscores l)

/-- Mantissa of a float literal: `int.frac` with either side optional but not
both; returns the combined digit value and the number of fraction digits. -/
def parseMantissa (mant : List Char) : Option (Nat × Nat) :=
  match splitOnChar '.' mant with
  | [ipart] => if dgOK ipart then some (digitsVal ipart, 0) else none
  | [ipart, fpart] =>
    if (ipart = [] ∨ dgOK ipart = true) ∧ (fpart = [] ∨ dgOK fpart = true) ∧
       ¬(ipart = [] ∧ fpart = []) then
      some (digitsVal ipart * 10 ^ (stripUnderscores fpart).length + digitsVal fpart,
            (stripUnderscores fpart).length)
    else none
  | _ => none

/-- Exponent part of a float literal: optional sign then a digit group. -/
def parseExp (l : List Char) : Option Int :=
  match l with
  | '+' :: rest => if dgOK rest then some (digitsVal rest : Int) else none
  | '-' :: rest => if dgOK rest then some (-(digitsVal rest : Int)) else none
  | rest => if dgOK rest then some (digitsVal rest : Int) else none

/-- Exact value `±M · 10^(E−f)` of a parsed decimal literal. -/
def decimalValue (sgn : Int) (M : Nat) (f : Nat) (E : Int) : Rat :=
  let k : Int := E - (f : Int)
  if 0 ≤ k then mkRat (sgn * (M * 10 ^ k.toNat : Nat)) 1
  else mkRat (sgn * (M : Int)) (10 ^ (-k).toNat)

/-- The numeric (non-special) forms accepted by `float(...)` after the sign
has been removed. -/
def parseDecimal (sgn : Int) (body : List Char) : Option PyFloat :=
  match splitOnChar 'e' (body.map asciiLower) with
  | [mant] =>
    match parseMantissa mant with
    | some (M, f) => some (.finite (decimalValue sgn M f 0))
    | none => none
  | [mant, ex] =>
    match parseMantissa mant, parseExp ex with
    | some (M, f), some E => some (.finite (decimalValue sgn M f E))
    | _, _ => none
  | _ => none

/-- Embeds Python's `float(s)` on strings: strip whitespace, optional sign,
then either a case-insensitive special (`inf`, `infinity`, `nan`) or a
decimal literal with optional underscores and exponent.  Returns `none`
exactly when Python raises `ValueError`. -/
def pyFloatOfChars (l0 : List Char) : Option PyFloat :=
  let l := trimChars l0
  if l = [] then none
  else
    let sgn : Int := match l.head? with
      | some '-' => -1
      | _ => 1
    let body := match l.head? with
      | some '-' => l.tail
      | some '+' => l.tail
      | _ => l
    let low := body.map asciiLower
    if low = ['i', 'n', 'f'] ∨ low = ['i', 'n', 'f', 'i', 'n', 'i', 't', 'y'] then
      some (if sgn = 1 then .inf else .neginf)
    else if low = ['n', 'a', 'n'] then some .nan
    else parseDecimal sgn body

/-! ### Product listing driver (`scrape_products_html`) -/

/-- The site's base URL (`BASE` in src/scrape_data.py). -/
def BASE : String := "https://web-scraping.dev"

/-- The detail link of a product card: its raw `href` attribute and its
anchor text (already extracted with `get_text(strip=True)`). -/
structure Link where
  href : String
  title : String
deriving Repr, DecidableEq

/-- One `div.row.product` card, holding exactly what the source's selectors
extract from the HTML: the optional detail link, the optional thumbnail
`src`, the optional short description text and the optional price text
(each already taken through `get_text`). -/
structure ProductRow where
  link : Option Link
  imageSrc : Option String
  description : Option String
  priceText : Option String
deriving Repr, DecidableEq

/-- One response to `GET /products?page=n`: its HTTP status and the parsed
product cards of its body (empty when the body has none). -/
structure ProductsPage where
  status : Nat
  rows : List ProductRow
deriving Repr, DecidableEq

/-- A scraped product record as appended to `products`. -/
structure Product where
  title : String
  url : String
  page : Nat
  image_url : Option String
  price : Option PyFloat
  description : Option String
deriving Repr, DecidableEq

/-- `urljoin(BASE, href)` restricted to the href shapes the site serves:
absolute URLs pass through, root-relative paths are attached to the base,
bare relative paths are attached below the base's (empty) path. -/
def urljoinBase (href : String) : String :=
  if ("http://".data).isPrefixOf href.data ∨ ("https://".data).isPrefixOf href.data then href
  else if ("/".data).isPrefixOf href.data then BASE ++ href
  else BASE ++ "/" ++ href

/-- `urlparse(url).path` restricted to http(s) URLs: drop the scheme and
authority, keep everything up to a query or fragment. -/
def urlPath (url : String) : String :=
  let l := url.data
  let p :=
    if ("https://".data).isPrefixOf l then (l.drop 8).dropWhile (fun c => c ≠ '/')
    else if ("http://".data).isPrefixOf l then (l.drop 7).dropWhile (fun c => c ≠ '/')
    else l
  String.mk (p.takeWhile (fun c => ¬(c = '?' ∨ c = '#')))

/-- The per-product URL pattern `re.search(r"^/product/\d+/?$", path)`
(ASCII digits). -/
def isProductPath (p : String) : Bool :=
  let l := p.data
  ("/product/".data).isPrefixOf l &&
    (let rest := l.drop 9
     let core := if rest.getLast? = some '/' then rest.dropLast else rest
     !core.isEmpty && core.all Char.isDigit)

/-- Price cleaning: `txt.replace("$", "").replace(",", "")` then `float`. -/
def parsePrice (t : String) : Option PyFloat :=
  pyFloatOfChars ((t.data.filter (fun c => c ≠ '$')).filter (fun c => c ≠ ','))

/-- The per-card body of the `for row in rows` loop of
`scrape_products_html`, up to the duplicate check: skip the card when the
detail link is missing or its path fails the product pattern, otherwise
build the candidate record keyed by its canonical URL. -/
def rowCandidate (page : Nat) (r : ProductRow) : Option (String × Product) :=
  r.link.bind (fun a =>
    let url := urljoinBase (pyStrip a.href)
    if isProductPath (urlPath url) then
      some (url,
        { title := a.title
          url := url
          page := page
          image_url := r.imageSrc.bind
            (fun s => if s = "" then none else some (urljoinBase (pyStrip s)))
          price := r.priceText.bind (fun t => parsePrice t)
          description := r.description })
    else none)

/-- Process the cards of one page in order, threading the `seen_urls` set:
returns the records added on this page and the updated set. -/
def processRows (page : Nat) : List String → List ProductRow → List Product × List String
  | seen, [] => ([], seen)
  | seen, r :: rs =>
    match rowCandidate page r with
    | none => processRows page seen rs
    | some (url, p) =>
      if url ∈ seen then processRows page seen rs
      else
        let rest := processRows page (url :: seen) rs
        (p :: rest.1, rest.2)

/-- The `for page in range(1, max_pages + 1)` loop of `scrape_products_html`
over an abstract server `fetch`.  Besides the accumulated records it returns
the number of page fetches performed.  The loop breaks on a non-200 status,
on a body with no product cards, and after a page whose cards yielded zero
new records. -/
def productsGo (fetch : Nat → ProductsPage) : Nat → Nat → List String → List Product → List Product × Nat
  | 0, _, _, acc => (acc, 0)
  | fuel + 1, page, seen, acc =>
    if (fetch page).status ≠ 200 then (acc, 1)
    else if (fetch page).rows = [] then (acc, 1)
    else
      let pr := processRows page seen (fetch page).rows
      if pr.1 = [] then (acc, 1)
      else
        let rest := productsGo fetch fuel (page + 1) pr.2 (acc ++ pr.1)
        (rest.1, rest.2 + 1)

/-- `scrape_products_html` instrumented with its fetch count. -/
def productsRun (fetch : Nat → ProductsPage) (max_pages : Nat) : List Product × Nat :=
  productsGo fetch max_pages 1 [] []

/-- Embeds `scrape_products_html` of src/scrape_data.py over an abstract
server mapping a page number to its response. -/
def scrape_products_html (fetch : Nat → ProductsPage) (max_pages : Nat) : List Product :=
  (productsRun fetch max_pages).1

/-! ### First-occurrence deduplication (pandas `drop_duplicates`) -/

/-- Helper for `dedupBy`: keep the elements whose key is not in `ks` and has
not occurred earlier in the list. -/
def dedupByAux {α β : Type} [DecidableEq β] (key : α → β) : List β → List α → List α
  | _, [] => []
  | ks, x :: xs =>
    if key x ∈ ks then dedupByAux key ks xs
    else x :: dedupByAux key (key x :: ks) xs

/-- `pd.DataFrame(l).drop_duplicates(subset=...)` with the default
`keep="first"`: retain the first occurrence of every key, in order. -/
def dedupBy {α β : Type} [DecidableEq β] (key : α → β) (l : List α) : List α :=
  dedupByAux key [] l

/-! ### Testimonials driver (`scrape_testimonials_api`) -/

/-- One `div.testimonial` card: the optional `username` attribute of its
`identicon-svg` element, the optional text of its `p.text` element, and the
count of its `.rating svg` elements. -/
structure TestimonialCard where
  username : Option String
  text : Option String
  rating : Nat
deriving Repr, DecidableEq

/-- One response to `GET /api/testimonials?page=n`. -/
structure TestimonialsPage where
  status : Nat
  cards : List TestimonialCard
deriving Repr, DecidableEq

/-- A scraped testimonial record. -/
structure Testimonial where
  page : Nat
  idx : Nat
  username : Option String
  text : String
  rating : Nat
deriving Repr, DecidableEq

/-- The per-card body of the testimonials loop: the record is appended only
when the card's text is present and non-empty (Python truthiness of
`text`). -/
def cardToTestimonial (page idx : Nat) (c : TestimonialCard) : Option Testimonial :=
  match c.text with
  | none => none
  | some t =>
    if t = "" then none
    else some { page := page, idx := idx, username := c.username, text := t, rating := c.rating }

/-- The page loop of `scrape_testimonials_api` over an abstract server,
instrumented with its fetch count.  The loop breaks on a non-200 status or
a page with no testimonial cards; a page whose cards are all dropped still
continues. -/
def testimonialsGo (fetch : Nat → TestimonialsPage) : Nat → Nat → List Testimonial → List Testimonial × Nat
  | 0, _, acc => (acc, 0)
  | fuel + 1, page, acc =>
    if (fetch page).status ≠ 200 then (acc, 1)
    else if (fetch page).cards = [] then (acc, 1)
    else
      let acc2 := acc ++ ((fetch page).cards.enum.filterMap
        (fun ic => cardToTestimonial page ic.1 ic.2))
      let rest := testimonialsGo fetch fuel (page + 1) acc2
      (rest.1, rest.2 + 1)

/-- The list collected by `scrape_testimonials_api` before deduplication. -/
def collectTestimonials (fetch : Nat → TestimonialsPage) (max_pages : Nat) : List Testimonial :=
  (testimonialsGo fetch max_pages 1 []).1

/-- Embeds `scrape_testimonials_api` of src/scrape_data.py.  The final
`pd.DataFrame(testimonials).drop_duplicates(subset=["text"])` raises a
`KeyError` when the collected list is empty, because the empty frame has no
`text` column; this is modelled by the `.error` branch. -/
def scrape_testimonials_api (fetch : Nat → TestimonialsPage) (max_pages : Nat) :
    Except String (List Testimonial) :=
  let c := collectTestimonials fetch max_pages
  if c = [] then .error "KeyError: text"
  else .ok (dedupBy (fun t => t.text) c)

/-! ### Reviews driver (`scrape_reviews_api`, GraphQL cursor pagination) -/

/-- The `node` object of a GraphQL review edge; every field may be absent. -/
structure GqlNode where
  rid : Option String
  text : Option String
  rating : Option Int
  date : Option String
deriving Repr, DecidableEq

/-- One edge of the `reviews` connection. -/
structure GqlEdge where
  node : GqlNode
  cursor : Option String
deriving Repr, DecidableEq

/-- One parsed response of `POST /api/graphql`: the HTTP status, whether a
top-level `errors` field is present, the edge list under
`data.reviews.edges` (empty when any of those keys is missing), and the
`pageInfo` fields. -/
structure GqlResponse where
  status : Nat
  errors : Bool
  edges : List GqlEdge
  hasNextPage : Bool
  endCursor : Option String
deriving Repr, DecidableEq

/-- A scraped review record. -/
structure ReviewRec where
  rid : Option String
  date : String
  text : String
  rating : Option Int
deriving Repr, DecidableEq

/-- The per-edge body of the reviews loop: the record is dropped unless the
node's date and text are present and truthy and the date parses with
`_parse_date`; the stored date is `dt.date().isoformat()` and the stored
text is `text.strip()`. -/
def edgeToReview (e : GqlEdge) : Option ReviewRec :=
  match e.node.date, e.node.text with
  | some ds, some tx =>
    if ds = "" ∨ tx = "" then none
    else
      match parseYMD ds with
      | none => none
      | some d =>
        some { rid := e.node.rid, date := d.iso, text := pyStrip tx, rating := e.node.rating }
  | _, _ => none

/-- Cursor advancement `after = page_info.get("endCursor") or
edges[-1].get("cursor")`: Python's `or` falls back whenever the end-cursor
is falsy, i.e. absent or the empty string. -/
def nextCursor (r : GqlResponse) : Option String :=
  match r.endCursor with
  | some s => if s = "" then (r.edges.getLast?).bind (fun e => e.cursor) else some s
  | none => (r.edges.getLast?).bind (fun e => e.cursor)

/-- The `for _ in range(max_pages)` loop of `scrape_reviews_api` over an
abstract server mapping the current cursor to a response, instrumented with
its fetch count.  It breaks on a non-200 status, on a response-level
`errors` field, on an empty edge list, and — after collecting the page's
records — on a false `hasNextPage`; otherwise it advances the cursor and
continues. -/
def reviewsGo (fetch : Option String → GqlResponse) : Nat → Option String → List ReviewRec → List ReviewRec × Nat
  | 0, _, acc => (acc, 0)
  | fuel + 1, after, acc =>
    if (fetch after).status ≠ 200 then (acc, 1)
    else if (fetch after).errors then (acc, 1)
    else if (fetch after).edges = [] then (acc, 1)
    else
      let acc2 := acc ++ (fetch after).edges.filterMap edgeToReview
      if (fetch after).hasNextPage = false then (acc2, 1)
      else
        let rest := reviewsGo fetch fuel (nextCursor (fetch after)) acc2
        (rest.1, rest.2 + 1)

/-- The list collected by `scrape_reviews_api` before deduplication. -/
def collectReviews (fetch : Option String → GqlResponse) (max_pages : Nat) : List ReviewRec :=
  (reviewsGo fetch max_pages none []).1

/-- The dedup key of a review. -/
def reviewKey (r : ReviewRec) : String × String :=
  (r.date, r.text)

/-- Embeds `scrape_reviews_api` of src/scrape_data.py.  As for the
testimonials, `pd.DataFrame(all_reviews).drop_duplicates(subset=["date",
"text"])` raises a `KeyError` on an empty collection. -/
def scrape_reviews_api (fetch : Option String → GqlResponse) (max_pages : Nat) :
    Except String (List ReviewRec) :=
  let c := collectReviews fetch max_pages
  if c = [] then .error "KeyError: date, text"
  else .ok (dedupBy reviewKey c)

/-! ### Aggregator (`main` of src/scrape_data.py) -/

/-- The abstract servers behind one scrape run. -/
structure Env where
  pfetch : Nat → ProductsPage
  tfetch : Nat → TestimonialsPage
  rfetch : Option String → GqlResponse

/-- The persisted snapshot document. -/
structure Snapshot where
  products : List Product
  testimonials : List Testimonial
  reviews : List ReviewRec
  scraped_at : String
  source : String
deriving Repr, DecidableEq

/-- Embeds `main` of src/scrape_data.py: run the three drivers with their
default page limits and assemble the snapshot with the capture timestamp
`now`; an exception from either API driver propagates. -/
def buildSnapshot (env : Env) (now : String) : Except String Snapshot :=
  match scrape_testimonials_api env.tfetch 50, scrape_reviews_api env.rfetch 50 with
  | .ok ts, .ok rs =>
    .ok { products := scrape_products_html env.pfetch 50
          testimonials := ts
          reviews := rs
          scraped_at := now
          source := BASE }
  | .error e, _ => .error e
  | .ok _, .error e => .error e

/-! ### Dashboard (src/app.py) -/

/-- The loaded `data.json` dictionary: each top-level collection key may be
absent. -/
structure RawSnapshot where
  products : Option (List Product)
  testimonials : Option (List Testimonial)
  reviews : Option (List ReviewRec)
deriving Repr, DecidableEq

/-- The Products view reads `data["products"]`: a missing key raises
`KeyError`. -/
def productsViewData (d : RawSnapshot) : Except String (List Product) :=
  match d.products with
  | none => .error "KeyError: products"
  | some l => .ok l

/-- The Testimonials view reads `data.get("testimonials", [])`. -/
def testimonialsViewData (d : RawSnapshot) : List Testimonial :=
  d.testimonials.getD []

/-- The Reviews view reads `data.get("reviews", [])`. -/
def reviewsViewData (d : RawSnapshot) : List ReviewRec :=
  d.reviews.getD []

/-- The classifier label dictionary `{"POSITIVE": "Positive", "NEGATIVE":
"Negative"}` used with `Series.map`: unknown labels map to missing. -/
def knownLabelMap (s : String) : Option String :=
  if s = "POSITIVE" then some "Positive"
  else if s = "NEGATIVE" then some "Negative"
  else none

/-- Embeds `filtered["sentiment"].map({...}).fillna(filtered["sentiment"])`:
map the known labels and fill the misses with the original label. -/
def normalizeSentiment (ls : List String) : List String :=
  ls.map (fun s => (knownLabelMap s).getD s)

/-- The lowercase month abbreviations matched by strptime `%b`
(case-insensitively), January first. -/
def monthAbbrevsLower : List (List Char) :=
  [['j','a','n'], ['f','e','b'], ['m','a','r'], ['a','p','r'], ['m','a','y'], ['j','u','n'],
   ['j','u','l'], ['a','u','g'], ['s','e','p'], ['o','c','t'], ['n','o','v'], ['d','e','c']]

/-- `datetime.strptime(label, "%b %Y")` restricted to single-space labels:
returns the month number (1–12) and the four-digit year; year 0 is rejected
by the `datetime` constructor. -/
def parseMonthLabel (label : String) : Option (Nat × Nat) :=
  match splitOnChar ' ' label.data with
  | [ms, ys] =>
    match monthAbbrevsLower.findIdx? (fun a => a = ms.map asciiLower), yearField ys with
    | some i, some y => if 1 ≤ y then some (i + 1, y) else none
    | _, _ => none
  | _ => none

/-- Embeds `month_label_to_range` of src/app.py: the first day of the
labelled month and the first day of the following month.  In December the
year is advanced; `dt.replace(year=dt.year + 1, ...)` would raise for year
9999, modelled by the `none` branch. -/
def month_label_to_range (label : String) : Option (Date × Date) :=
  (parseMonthLabel label).bind (fun my =>
    if my.1 = 12 then
      if my.2 + 1 ≤ 9999 then some (⟨my.2, 12, 1⟩, ⟨my.2 + 1, 1, 1⟩) else none
    else some (⟨my.2, my.1, 1⟩, ⟨my.2, my.1 + 1, 1⟩))

/-! ### Lemmas about first-occurrence deduplication -/

theorem dedupByAux_sublist {α β : Type} [DecidableEq β] (key : α → β)
    (l : List α) : ∀ ks, (dedupByAux key ks l).Sublist l := by
  induction l with
  | nil => intro ks; simp [dedupByAux]
  | cons x xs ih =>
    intro ks
    simp only [dedupByAux]
    by_cases h : key x ∈ ks
    · rw [if_pos h]; exact (ih ks).cons x
    · rw [if_neg h]; exact List.cons_sublist_cons.mpr (ih (key x :: ks))

theorem dedupByAux_key_not_mem {α β : Type} [DecidableEq β] (key : α → β)
    (l : List α) : ∀ ks a, a ∈ dedupByAux key ks l → key a ∉ ks := by
  induction l with
  | nil => intro ks a h; simp [dedupByAux] at h
  | cons x xs ih =>
    intro ks a h
    simp only [dedupByAux] at h
    by_cases hx : key x ∈ ks
    · rw [if_pos hx] at h; exact ih ks a h
    · rw [if_neg hx] at h
      rcases List.mem_cons.mp h with h1 | h2
      · subst h1; exact hx
      · intro hc
        exact ih (key x :: ks) a h2 (List.mem_cons_of_mem _ hc)

theorem dedupByAux_keys_nodup {α β : Type} [DecidableEq β] (key : α → β)
    (l : List α) : ∀ ks, ((dedupByAux key ks l).map key).Nodup := by
  induction l with
  | nil => intro ks; simp [dedupByAux]
  | cons x xs ih =>
    intro ks
    simp only [dedupByAux]
    by_cases hx : key x ∈ ks
    · rw [if_pos hx]; exact ih ks
    · rw [if_neg hx]
      simp only [List.map_cons, List.nodup_cons]
      refine ⟨?_, ih (key x :: ks)⟩
      intro hc
      rcases List.mem_map.mp hc with ⟨a, ha, hka⟩
      exact dedupByAux_key_not_mem key xs (key x :: ks) a ha (hka ▸ List.mem_cons_self _ _)

theorem dedupByAux_covers {α β : Type} [DecidableEq β] (key : α → β)
    (l : List α) : ∀ ks a, a ∈ l → key a ∉ ks →
      ∃ b ∈ dedupByAux key ks l, key b = key a := by
  induction l with
  | nil => intro ks a h; simp at h
  | cons x xs ih =>
    intro ks a ha hks
    simp only [dedupByAux]
    rcases List.mem_cons.mp ha with rfl | hmem
    · rw [if_neg hks]
      exact ⟨a, List.mem_cons_self _ _, rfl⟩
    · by_cases hx : key x ∈ ks
      · rw [if_pos hx]; exact ih ks a hmem hks
      · rw [if_neg hx]
        by_cases hkey : key a = key x
        · exact ⟨x, List.mem_cons_self _ _, hkey.symm⟩
        · obtain ⟨b, hb, hkb⟩ := ih (key x :: ks) a hmem (by
            intro hc
            rcases List.mem_cons.mp hc with h1 | h2
            · exact hkey h1
            · exact hks h2)
          exact ⟨b, List.mem_cons_of_mem _ hb, hkb⟩

theorem dedupByAux_find_first {α β : Type} [DecidableEq β] (key : α → β)
    (l : List α) : ∀ ks b, b ∈ dedupByAux key ks l →
      l.find? (fun a => decide (key a = key b)) = some b := by
  induction l with
  | nil => intro ks b h; simp [dedupByAux] at h
  | cons x xs ih =>
    intro ks b h
    simp only [dedupByAux] at h
    by_cases hx : key x ∈ ks
    · rw [if_pos hx] at h
      have hkb := dedupByAux_key_not_mem key xs ks b h
      have hne : (decide (key x = key b)) = false := by
        apply decide_eq_false
        intro hceq
        exact hkb (hceq ▸ hx)
      simp only [List.find?, hne]
      exact ih ks b h
    · rw [if_neg hx] at h
      rcases List.mem_cons.mp h with rfl | hmem
      · exact List.find?_cons_of_pos _ (decide_eq_true rfl)
      · have hkb := dedupByAux_key_not_mem key xs (key x :: ks) b hmem
        have hne : (decide (key x = key b)) = false := by
          apply decide_eq_false
          intro hceq
          exact hkb (hceq ▸ List.mem_cons_self _ _)
        simp only [List.find?, hne]
        exact ih (key x :: ks) b hmem

/-! ### Lemmas about the pagination loops -/

theorem productsGo_count_le (fetch : Nat → ProductsPage) :
    ∀ fuel page seen acc, (productsGo fetch fuel page seen acc).2 ≤ fuel := by
  intro fuel
  induction fuel with
  | zero => intro page seen acc; simp [productsGo]
  | succ n ih =>
    intro page seen acc
    simp only [productsGo]
    split
    · simp
    · split
      · simp
      · split
        · simp
        · exact Nat.succ_le_succ (ih _ _ _)

theorem reviewsGo_count_le (fetch : Option String → GqlResponse) :
    ∀ fuel after acc, (reviewsGo fetch fuel after acc).2 ≤ fuel := by
  intro fuel
  induction fuel with
  | zero => intro after acc; simp [reviewsGo]
  | succ n ih =>
    intro after acc
    simp only [reviewsGo]
    split
    · simp
    · split
      · simp
      · split
        · simp
        · split
          · simp
          · exact Nat.succ_le_succ (ih _ _)

theorem reviewsGo_mem (fetch : Option String → GqlResponse) :
    ∀ fuel after acc r, r ∈ (reviewsGo fetch fuel after acc).1 →
      r ∈ acc ∨ ∃ e : GqlEdge, edgeToReview e = some r := by
  intro fuel
  induction fuel with
  | zero => intro after acc r h; exact Or.inl h
  | succ n ih =>
    intro after acc r h
    simp only [reviewsGo] at h
    split at h
    · exact Or.inl h
    · split at h
      · exact Or.inl h
      · split at h
        · exact Or.inl h
        · split at h
          · rcases List.mem_append.mp h with h1 | h2
            · exact Or.inl h1
            · rcases List.mem_filterMap.mp h2 with ⟨e, _, he⟩
              exact Or.inr ⟨e, he⟩
          · rcases ih _ _ r h with h1 | h2
            · rcases List.mem_append.mp h1 with h3 | h4
              · exact Or.inl h3
              · rcases List.mem_filterMap.mp h4 with ⟨e, _, he⟩
                exact Or.inr ⟨e, he⟩
            · exact Or.inr h2

theorem productsGo_stop_at (fetch : Nat → ProductsPage) :
    ∀ d fuel page seen acc, d < fuel →
      ((fetch (page + d)).status ≠ 200 ∨ (fetch (page + d)).rows = []) →
      productsGo fetch fuel page seen acc = productsGo fetch (d + 1) page seen acc := by
  intro d
  induction d with
  | zero =>
    intro fuel page seen acc hlt hbad
    rw [Nat.add_zero] at hbad
    match fuel, hlt with
    | f + 1, _ =>
      simp only [productsGo]
      by_cases h1 : (fetch page).status ≠ 200
      · rw [if_pos h1, if_pos h1]
      · rw [if_neg h1, if_neg h1]
        have h2 : (fetch page).rows = [] := by
          rcases hbad with hb | hb
          · exact absurd hb h1
          · exact hb
        rw [if_pos h2, if_pos h2]
  | succ d ih =>
    intro fuel page seen acc hlt hbad
    match fuel, hlt with
    | f + 1, hlt =>
      have hdf : d < f := Nat.lt_of_succ_lt_succ hlt
      have hbad2 : (fetch (page + 1 + d)).status ≠ 200 ∨ (fetch (page + 1 + d)).rows = [] := by
        have heq : page + 1 + d = page + (d + 1) := by omega
        rw [heq]; exact hbad
      simp only [productsGo]
      by_cases h1 : (fetch page).status ≠ 200
      · rw [if_pos h1, if_pos h1]
      · rw [if_neg h1, if_neg h1]
        by_cases h2 : (fetch page).rows = []
        · rw [if_pos h2, if_pos h2]
        · rw [if_neg h2, if_neg h2]
          by_cases h3 : (processRows page seen (fetch page).rows).1 = []
          · rw [if_pos h3, if_pos h3]
          · rw [if_neg h3, if_neg h3]
            rw [ih f (page + 1) (processRows page seen (fetch page).rows).2
              (acc ++ (processRows page seen (fetch page).rows).1) hdf hbad2]
            simp only [productsGo]

/-! ### Lemmas about the per-record parsing -/

theorem parseYMD_valid (s : String) (d : Date) (h : parseYMD s = some d) :
    d.validB = true := by
  unfold parseYMD at h
  split at h
  · split at h
    · split at h
      · cases h
        assumption
      · cases h
    · cases h
  · cases h

theorem edgeToReview_shape (e : GqlEdge) (r : ReviewRec) (h : edgeToReview e = some r) :
    (∃ d : Date, d.validB = true ∧ r.date = d.iso) ∧
    (∃ orig : String, orig ≠ "" ∧ r.text = pyStrip orig) := by
  unfold edgeToReview at h
  split at h
  case _ ds tx _ _ =>
    split at h
    · cases h
    case _ hne =>
      split at h
      · cases h
      case _ d hd =>
        cases h
        constructor
        · exact ⟨d, parseYMD_valid ds d hd, rfl⟩
        · refine ⟨tx, ?_, rfl⟩
          intro hc
          exact hne (Or.inr hc)
  · cases h

/-! ### Claim theorems -/

/-- C2: for every price string, the price cleaning never raises: the
product's price field is exactly the result of parsing the cleaned string
(`some` of that float when it parses, absent otherwise), and whether the
card yields a record does not depend on the price text at all. -/
theorem price_cleaning_spec (r : ProductRow) (page : Nat) (t : String)
    (ht : r.priceText = some t) (url : String) (p : Product)
    (hc : rowCandidate page r = some (url, p)) :
    p.price = parsePrice t ∧
    (rowCandidate page r).isSome = (rowCandidate page { r with priceText := none }).isSome := by
  unfold rowCandidate at hc ⊢
  cases hl : r.link with
  | none => rw [hl] at hc; cases hc
  | some a =>
    rw [hl] at hc
    simp only [Option.some_bind] at hc ⊢
    by_cases hpath : isProductPath (urlPath (urljoinBase (pyStrip a.href))) = true
    · rw [if_pos hpath] at hc
      simp only [Option.some.injEq, Prod.mk.injEq] at hc
      obtain ⟨-, hp⟩ := hc
      subst hp
      refine ⟨?_, ?_⟩
      · rw [ht, Option.some_bind]
      · rw [if_pos hpath, if_pos hpath]; rfl
    · rw [if_neg hpath] at hc
      cases hc

/-- Concrete product card for the C2 witness. -/
def c2row : ProductRow :=
  { link := some ⟨"/product/7", "Widget"⟩
    imageSrc := none
    description := some "A widget"
    priceText := some "$1,299.00" }

/-- Concrete product record for the C2 witness. -/
def c2prod : Product :=
  { title := "Widget"
    url := "https://web-scraping.dev/product/7"
    page := 1
    image_url := none
    price := some (.finite 1299)
    description := some "A widget" }

/-- Witness for C2 at a price text with a currency symbol and a thousand
separator. -/
theorem price_cleaning_spec_witness :
    c2prod.price = parsePrice "$1,299.00" ∧
    (rowCandidate 1 c2row).isSome = (rowCandidate 1 { c2row with priceText := none }).isSome :=
  price_cleaning_spec c2row 1 "$1,299.00" rfl "https://web-scraping.dev/product/7" c2prod
    (by decide)

/-- C3: `month_label_to_range` maps a parsed month label to the half-open
range from the first day of that month to the first day of the next month,
advancing the year in December (the hypothesis excludes only the year-9999
overflow on which `datetime.replace` raises). -/
theorem month_label_to_range_spec (label : String) (m y : Nat)
    (hp : parseMonthLabel label = some (m, y)) (hy : m = 12 → y + 1 ≤ 9999) :
    month_label_to_range label =
      some (⟨y, m, 1⟩, if m = 12 then ⟨y + 1, 1, 1⟩ else ⟨y, m + 1, 1⟩) := by
  unfold month_label_to_range
  rw [hp, Option.some_bind]
  by_cases hm : m = 12
  · subst hm
    simp [hy rfl]
  · simp [hm]

/-- Witness for C3 at the two labels named by the claim, December rolling
over the year. -/
theorem month_label_to_range_spec_witness :
    parseMonthLabel "Mar 2023" = some (3, 2023) ∧
    month_label_to_range "Mar 2023" = some (⟨2023, 3, 1⟩, ⟨2023, 4, 1⟩) ∧
    parseMonthLabel "Dec 2023" = some (12, 2023) ∧
    month_label_to_range "Dec 2023" = some (⟨2023, 12, 1⟩, ⟨2024, 1, 1⟩) := by
  refine ⟨by decide, ?_, by decide, ?_⟩
  · exact (month_label_to_range_spec "Mar 2023" 3 2023 (by decide) (by decide)).trans (by decide)
  · exact (month_label_to_range_spec "Dec 2023" 12 2023 (by decide) (by decide)).trans (by decide)

/-- C7: the dashboard's label normalization maps `POSITIVE` to `Positive`
and `NEGATIVE` to `Negative` and passes every other label through
verbatim, position by position over the whole prediction list. -/
theorem sentiment_label_normalization (ls : List String) (i : Nat) (s : String)
    (h : ls[i]? = some s) :
    (normalizeSentiment ls)[i]? =
      some (if s = "POSITIVE" then "Positive"
            else if s = "NEGATIVE" then "Negative" else s) := by
  unfold normalizeSentiment
  rw [List.getElem?_map, h]
  unfold knownLabelMap
  by_cases h1 : s = "POSITIVE"
  · subst h1; rfl
  · by_cases h2 : s = "NEGATIVE"
    · subst h2; rfl
    · simp [h1, h2]

/-- Witness for C7 on a list holding both known labels and an unknown one. -/
theorem sentiment_label_normalization_witness :
    (["POSITIVE", "NEGATIVE", "Mixed"] : List String)[0]? = some "POSITIVE" ∧
    (normalizeSentiment ["POSITIVE", "NEGATIVE", "Mixed"])[0]? = some "Positive" ∧
    (normalizeSentiment ["POSITIVE", "NEGATIVE", "Mixed"])[1]? = some "Negative" ∧
    (normalizeSentiment ["POSITIVE", "NEGATIVE", "Mixed"])[2]? = some "Mixed" := by
  refine ⟨by decide, ?_, ?_, ?_⟩
  · exact (sentiment_label_normalization ["POSITIVE", "NEGATIVE", "Mixed"] 0 "POSITIVE"
      (by decide)).trans (by decide)
  · exact (sentiment_label_normalization ["POSITIVE", "NEGATIVE", "Mixed"] 1 "NEGATIVE"
      (by decide)).trans (by decide)
  · exact (sentiment_label_normalization ["POSITIVE", "NEGATIVE", "Mixed"] 2 "Mixed"
      (by decide)).trans (by decide)

/-- C10: a loaded snapshot without the `products` key makes the Products
view raise a `KeyError`, while missing `testimonials` or `reviews` keys
render those views from the empty collection; a present `products` key
raises nothing. -/
theorem dashboard_missing_keys (d : RawSnapshot) :
    (d.products = none → productsViewData d = .error "KeyError: products") ∧
    (d.testimonials = none → testimonialsViewData d = []) ∧
    (d.reviews = none → reviewsViewData d = []) ∧
    (∀ l, d.products = some l → productsViewData d = .ok l) := by
  refine ⟨?_, ?_, ?_, ?_⟩
  · intro h; unfold productsViewData; rw [h]
  · intro h; unfold testimonialsViewData; rw [h]; rfl
  · intro h; unfold reviewsViewData; rw [h]; rfl
  · intro l h; unfold productsViewData; rw [h]

/-- Witness for C10 at a snapshot dictionary with all three keys absent. -/
theorem dashboard_missing_keys_witness :
    productsViewData ⟨none, none, none⟩ = .error "KeyError: products" ∧
    testimonialsViewData ⟨none, none, none⟩ = [] ∧
    reviewsViewData ⟨none, none, none⟩ = [] := by
  have h := dashboard_missing_keys ⟨none, none, none⟩
  exact ⟨h.1 rfl, h.2.1 rfl, h.2.2.1 rfl⟩

/-- C1 counterexample fetch: a single page whose only edge has a valid date
and the whitespace-only text `" "`, which passes the `if not text` check and
is then stripped to the empty string. -/
def c1fetch : Option String → GqlResponse := fun _ =>
  { status := 200
    errors := false
    edges := [{ node := { rid := none, text := some " ", rating := none, date := some "2023-01-05" }
                cursor := none }]
    hasNextPage := false
    endCursor := none }

/-- C1 counterexample: `scrape_reviews_api` returns (without error) a record
whose stored text is empty, because a whitespace-only node text survives the
presence check and `text.strip()` empties it.  This refutes the claim that
every returned record has non-empty text. -/
theorem reviews_text_nonempty_cex :
    scrape_reviews_api c1fetch 50 =
      .ok [{ rid := none, date := "2023-01-05", text := "", rating := none }] ∧
    ({ rid := none, date := "2023-01-05", text := "", rating := none } : ReviewRec).text = "" :=
  ⟨by decide, rfl⟩

/-- C1 (amended): every record returned by `scrape_reviews_api` has a date
that parsed as a valid calendar date and is stored in ISO form, and a text
that is the whitespace-stripped form of a non-empty original (so the stored
text itself may be empty only for whitespace-only originals); edges missing
date or text, or with unparseable dates, never produce records and no error
is raised for them. -/
theorem reviews_record_invariant (fetch : Option String → GqlResponse) (mp : Nat)
    (l : List ReviewRec) (h : scrape_reviews_api fetch mp = .ok l)
    (r : ReviewRec) (hr : r ∈ l) :
    (∃ d : Date, d.validB = true ∧ r.date = d.iso) ∧
    (∃ orig : String, orig ≠ "" ∧ r.text = pyStrip orig) := by
  simp only [scrape_reviews_api] at h
  split at h
  · cases h
  · cases h
    have hmem : r ∈ collectReviews fetch mp :=
      (dedupByAux_sublist reviewKey (collectReviews fetch mp) []).mem hr
    rcases reviewsGo_mem fetch mp none [] r hmem with hder | ⟨e, he⟩
    · simp at hder
    · exact edgeToReview_shape e r he

/-- Fetch for the C1 witness: one ordinary valid review. -/
def c1wfetch : Option String → GqlResponse := fun _ =>
  { status := 200
    errors := false
    edges := [{ node := { rid := some "r1", text := some " great ", rating := some 5, date := some "2023-03-05" }
                cursor := none }]
    hasNextPage := false
    endCursor := none }

/-- The record the C1 witness run returns. -/
def c1wrec : ReviewRec :=
  { rid := some "r1", date := "2023-03-05", text := "great", rating := some 5 }

/-- Witness for the amended C1 on a concrete run. -/
theorem reviews_record_invariant_witness :
    (∃ d : Date, d.validB = true ∧ c1wrec.date = d.iso) ∧
    (∃ orig : String, orig ≠ "" ∧ c1wrec.text = pyStrip orig) :=
  reviews_record_invariant c1wfetch 50 [c1wrec] (by decide) c1wrec (by decide)

/-- C5 counterexample responses: the first page carries `endCursor = ""`
(present but empty) while its last edge carries cursor `"c1"`. -/
def c5r1 : GqlResponse :=
  { status := 200
    errors := false
    edges := [{ node := { rid := some "a", text := some "first", rating := none, date := some "2023-01-01" }
                cursor := some "c1" }]
    hasNextPage := true
    endCursor := some "" }

/-- Second page of the C5 counterexample server, reached only under cursor
`"c1"`. -/
def c5r2 : GqlResponse :=
  { status := 200
    errors := false
    edges := [{ node := { rid := some "b", text := some "second", rating := none, date := some "2023-02-02" }
                cursor := none }]
    hasNextPage := false
    endCursor := none }

/-- The C5 counterexample server, keyed by the request cursor. -/
def c5fetch : Option String → GqlResponse := fun c =>
  if c = some "c1" then c5r2 else c5r1

/-- C5 counterexample: with a present-but-empty server end-cursor the code
advances to the last edge's own cursor `"c1"` instead of the supplied `""`;
the driver therefore reaches the page served under `"c1"` and returns its
record.  This refutes the claim that the fallback happens only when the
end-cursor is absent. -/
theorem review_cursor_fallback_cex :
    c5r1.endCursor = some "" ∧
    nextCursor c5r1 = some "c1" ∧
    ¬nextCursor c5r1 = c5r1.endCursor ∧
    scrape_reviews_api c5fetch 50 =
      .ok [{ rid := some "a", date := "2023-01-01", text := "first", rating := none },
           { rid := some "b", date := "2023-02-02", text := "second", rating := none }] :=
  ⟨rfl, by decide, by decide, by decide⟩

/-- C5 (amended): one step of the review pagination loop stops exactly on a
non-success status, a response-level error field, an empty edge list, or a
false `hasNextPage` (collecting the final page's records in the last case);
otherwise it recurses with the advanced cursor.  The cursor advances to the
server end-cursor when that is present and non-empty, and falls back to the
last edge's own cursor when the end-cursor is absent or empty; the loop
performs at most `max_pages` fetches. -/
theorem reviews_pagination_step_spec (fetch : Option String → GqlResponse)
    (fuel : Nat) (after : Option String) (acc : List ReviewRec) :
    ((fetch after).status ≠ 200 → reviewsGo fetch (fuel + 1) after acc = (acc, 1)) ∧
    ((fetch after).status = 200 → (fetch after).errors = true →
      reviewsGo fetch (fuel + 1) after acc = (acc, 1)) ∧
    ((fetch after).status = 200 → (fetch after).errors = false → (fetch after).edges = [] →
      reviewsGo fetch (fuel + 1) after acc = (acc, 1)) ∧
    ((fetch after).status = 200 → (fetch after).errors = false → (fetch after).edges ≠ [] →
      (fetch after).hasNextPage = false →
      reviewsGo fetch (fuel + 1) after acc =
        (acc ++ (fetch after).edges.filterMap edgeToReview, 1)) ∧
    ((fetch after).status = 200 → (fetch after).errors = false → (fetch after).edges ≠ [] →
      (fetch after).hasNextPage = true →
      reviewsGo fetch (fuel + 1) after acc =
        ((reviewsGo fetch fuel (nextCursor (fetch after))
            (acc ++ (fetch after).edges.filterMap edgeToReview)).1,
         (reviewsGo fetch fuel (nextCursor (fetch after))
            (acc ++ (fetch after).edges.filterMap edgeToReview)).2 + 1)) ∧
    (∀ s, (fetch after).endCursor = some s → s ≠ "" → nextCursor (fetch after) = some s) ∧
    ((fetch after).endCursor = none ∨ (fetch after).endCursor = some "" →
      nextCursor (fetch after) = ((fetch after).edges.getLast?).bind (fun e => e.cursor)) ∧
    (reviewsGo fetch fuel after acc).2 ≤ fuel := by
  refine ⟨?_, ?_, ?_, ?_, ?_, ?_, ?_, reviewsGo_count_le fetch fuel after acc⟩
  · intro h1; simp [reviewsGo, h1]
  · intro h1 h2; simp [reviewsGo, h1, h2]
  · intro h1 h2 h3; simp [reviewsGo, h1, h2, h3]
  · intro h1 h2 h3 h4; simp [reviewsGo, h1, h2, h3, h4]
  · intro h1 h2 h3 h4; simp [reviewsGo, h1, h2, h3, h4]
  · intro s hs hne
    simp [nextCursor, hs, hne]
  · intro hcase
    rcases hcase with h1 | h1 <;> simp [nextCursor, h1]

/-- Fetch for the C5 witness: a single final page with a non-empty
end-cursor. -/
def c5wfetch : Option String → GqlResponse := fun _ =>
  { status := 200
    errors := false
    edges := [{ node := { rid := some "w", text := some "ok", rating := none, date := some "2023-05-01" }
                cursor := some "k" }]
    hasNextPage := false
    endCursor := some "end" }

/-- Witness for the amended C5: the collecting stop case and the non-empty
end-cursor advancement at a concrete response. -/
theorem reviews_pagination_step_spec_witness :
    reviewsGo c5wfetch 1 none [] =
      ([{ rid := some "w", date := "2023-05-01", text := "ok", rating := none }], 1) ∧
    nextCursor (c5wfetch none) = some "end" := by
  have h := reviews_pagination_step_spec c5wfetch 0 none []
  refine ⟨?_, ?_⟩
  · exact (h.2.2.2.1 rfl rfl (by decide) rfl).trans (by decide)
  · exact h.2.2.2.2.2.1 "end" rfl (by decide)

/-- C6: the list returned by `scrape_reviews_api` has pairwise-distinct
`(date, text)` keys, is a sublist of the collected records, covers every
collected key, and each returned record is the first collected record with
its key; every collected record arose from an edge accepted by the
per-edge validation (so edges missing date or text were excluded before
the deduplication). -/
theorem reviews_dedup_spec (fetch : Option String → GqlResponse) (mp : Nat)
    (l : List ReviewRec) (h : scrape_reviews_api fetch mp = .ok l) :
    (l.map reviewKey).Nodup ∧
    l.Sublist (collectReviews fetch mp) ∧
    (∀ r ∈ collectReviews fetch mp, ∃ b ∈ l, reviewKey b = reviewKey r) ∧
    (∀ b ∈ l, (collectReviews fetch mp).find? (fun a => decide (reviewKey a = reviewKey b)) = some b) ∧
    (∀ r ∈ collectReviews fetch mp, ∃ e : GqlEdge, edgeToReview e = some r) := by
  simp only [scrape_reviews_api] at h
  split at h
  · cases h
  · cases h
    refine ⟨dedupByAux_keys_nodup reviewKey (collectReviews fetch mp) [],
            dedupByAux_sublist reviewKey (collectReviews fetch mp) [], ?_, ?_, ?_⟩
    · intro r hr
      exact dedupByAux_covers reviewKey (collectReviews fetch mp) [] r hr (by simp)
    · intro b hb
      exact dedupByAux_find_first reviewKey (collectReviews fetch mp) [] b hb
    · intro r hr
      rcases reviewsGo_mem fetch mp none [] r hr with hacc | he
      · simp at hacc
      · exact he

/-- Fetch for the C6 witness: one page carrying two edges with the same
`(date, text)` pair and a third distinct one. -/
def c6fetch : Option String → GqlResponse := fun _ =>
  { status := 200
    errors := false
    edges := [{ node := { rid := some "a", text := some "dup", rating := some 4, date := some "2023-01-01" }
                cursor := none },
              { node := { rid := some "b", text := some "dup", rating := some 1, date := some "2023-01-01" }
                cursor := none },
              { node := { rid := some "c", text := some "other", rating := none, date := some "2023-01-02" }
                cursor := none }]
    hasNextPage := false
    endCursor := none }

/-- First record of the C6 witness page. -/
def c6ra : ReviewRec := { rid := some "a", date := "2023-01-01", text := "dup", rating := some 4 }

/-- Third record of the C6 witness page, the only other key. -/
def c6rc : ReviewRec := { rid := some "c", date := "2023-01-02", text := "other", rating := none }

/-- Witness for C6: the duplicate-keyed second record is dropped, the first
occurrence is kept, and the theorem applies to the run. -/
theorem reviews_dedup_spec_witness :
    scrape_reviews_api c6fetch 50 = .ok [c6ra, c6rc] ∧
    ([c6ra, c6rc].map reviewKey).Nodup := by
  have hok : scrape_reviews_api c6fetch 50 = .ok [c6ra, c6rc] := by decide
  exact ⟨hok, (reviews_dedup_spec c6fetch 50 [c6ra, c6rc] hok).1⟩

/-- C4: the product driver performs at most `max_pages` fetches, and once a
page `k` within the budget answers with a non-success status or with zero
parseable product rows, it performs at most `k` fetches and returns exactly
what the run truncated to pages `1..k` returns — the records accumulated
from the pages before `k`, in discovery order. -/
theorem products_pagination_stop (fetch : Nat → ProductsPage) (mp k : Nat)
    (hk1 : 1 ≤ k) (hk2 : k ≤ mp)
    (hbad : (fetch k).status ≠ 200 ∨ (fetch k).rows = []) :
    (productsRun fetch mp).2 ≤ k ∧ (productsRun fetch mp).2 ≤ mp ∧
    scrape_products_html fetch mp = scrape_products_html fetch k := by
  have heq : 1 + (k - 1) = k := by omega
  have hstop := productsGo_stop_at fetch (k - 1) mp 1 [] [] (by omega)
    (by rw [heq]; exact hbad)
  have hk : k - 1 + 1 = k := by omega
  rw [hk] at hstop
  unfold scrape_products_html productsRun
  rw [hstop]
  exact ⟨productsGo_count_le fetch k 1 [] [],
         Nat.le_trans (productsGo_count_le fetch k 1 [] []) hk2, rfl⟩

/-- A product card for the C4 witness pages. -/
def c4row (n : Nat) : ProductRow :=
  { link := some ⟨"/product/" ++ toString n, "P" ++ toString n⟩
    imageSrc := none
    description := none
    priceText := some "$9.99" }

/-- The C4 witness server: two pages with cards, page 3 empty. -/
def c4fetch : Nat → ProductsPage
  | 1 => ⟨200, [c4row 1, c4row 2]⟩
  | 2 => ⟨200, [c4row 3]⟩
  | _ => ⟨200, []⟩

/-- The product record the C4 witness run builds from card `n` on page
`pg`. -/
def c4prod (n pg : Nat) : Product :=
  { title := "P" ++ toString n
    url := "https://web-scraping.dev/product/" ++ toString n
    page := pg
    image_url := none
    price := some (.finite (mkRat 999 100))
    description := none }

/-- Witness for C4: with page 3 empty the 50-page run stops after at most 3
fetches and returns exactly the pages-1-and-2 records in discovery order. -/
theorem products_pagination_stop_witness :
    (productsRun c4fetch 50).2 ≤ 3 ∧
    scrape_products_html c4fetch 50 = [c4prod 1 1, c4prod 2 1, c4prod 3 2] := by
  have h := products_pagination_stop c4fetch 50 3 (by decide) (by decide)
    (Or.inr (by decide))
  exact ⟨h.1, h.2.2.trans (by decide)⟩

/-- C8: the snapshot assembly is deterministic in the upstream data — two
runs over the same servers yield the very same record collections, the
snapshots differing only in the `scraped_at` timestamp. -/
theorem snapshot_determinism (env : Env) (t1 t2 : String) (s1 : Snapshot)
    (h1 : buildSnapshot env t1 = .ok s1) :
    buildSnapshot env t2 = .ok { s1 with scraped_at := t2 } ∧
    ∀ s2, buildSnapshot env t2 = .ok s2 →
      s2.products = s1.products ∧ s2.testimonials = s1.testimonials ∧
      s2.reviews = s1.reviews ∧ s2.scraped_at = t2 := by
  unfold buildSnapshot at h1 ⊢
  split at h1
  case _ ts rs hts hrs =>
    cases h1
    refine ⟨rfl, ?_⟩
    intro s2 h2
    cases h2
    exact ⟨rfl, rfl, rfl, rfl⟩
  case _ => cases h1
  case _ => cases h1

/-- The C8 witness environment: products fail at page 1, one testimonial
page then a 403, a single final review page. -/
def c8env : Env :=
  { pfetch := fun _ => ⟨404, []⟩
    tfetch := fun pg => if pg = 1 then ⟨200, [⟨some "u", some "hello", 5⟩]⟩ else ⟨403, []⟩
    rfetch := fun _ =>
      ⟨200, false,
       [{ node := { rid := some "r1", text := some "good", rating := some 5, date := some "2023-03-05" }
          cursor := none }],
       false, none⟩ }

/-- The snapshot the C8 witness environment produces at timestamp `"T1"`. -/
def c8snap : Snapshot :=
  { products := []
    testimonials := [{ page := 1, idx := 0, username := some "u", text := "hello", rating := 5 }]
    reviews := [{ rid := some "r1", date := "2023-03-05", text := "good", rating := some 5 }]
    scraped_at := "T1"
    source := BASE }

/-- Witness for C8: re-running the C8 environment at timestamp `"T2"`
changes only `scraped_at`. -/
theorem snapshot_determinism_witness :
    buildSnapshot c8env "T2" = .ok { c8snap with scraped_at := "T2" } :=
  (snapshot_determinism c8env "T1" "T2" c8snap (by decide)).1

/-- The testimonials driver collects nothing when its first page already
fails. -/
theorem collectTestimonials_nil_of_bad_first (tf : Nat → TestimonialsPage) (mp : Nat)
    (h : (tf 1).status ≠ 200) : collectTestimonials tf mp = [] := by
  cases mp with
  | zero => rfl
  | succ n => simp [collectTestimonials, testimonialsGo, h]

/-- The reviews driver collects nothing when its first request already
fails. -/
theorem collectReviews_nil_of_bad_first (rf : Option String → GqlResponse) (mp : Nat)
    (h : (rf none).status ≠ 200) : collectReviews rf mp = [] := by
  cases mp with
  | zero => rfl
  | succ n => simp [collectReviews, reviewsGo, h]

/-- C9: a run that collects zero testimonial (resp. review) records makes
`scrape_testimonials_api` (resp. `scrape_reviews_api`) raise a `KeyError`
at the deduplication step instead of returning an empty list — in
particular when the very first fetch answers with a non-success status —
while `scrape_products_html` returns the empty list in the analogous
case. -/
theorem empty_collection_behavior (tf : Nat → TestimonialsPage)
    (rf : Option String → GqlResponse) (pf : Nat → ProductsPage) (mp : Nat) :
    (collectTestimonials tf mp = [] →
      scrape_testimonials_api tf mp = .error "KeyError: text") ∧
    (collectReviews rf mp = [] →
      scrape_reviews_api rf mp = .error "KeyError: date, text") ∧
    ((tf 1).status ≠ 200 → scrape_testimonials_api tf mp = .error "KeyError: text") ∧
    ((rf none).status ≠ 200 → scrape_reviews_api rf mp = .error "KeyError: date, text") ∧
    ((pf 1).status ≠ 200 → scrape_products_html pf mp = []) := by
  refine ⟨?_, ?_, ?_, ?_, ?_⟩
  · intro h; simp [scrape_testimonials_api, h]
  · intro h; simp [scrape_reviews_api, h]
  · intro h
    simp [scrape_testimonials_api, collectTestimonials_nil_of_bad_first tf mp h]
  · intro h
    simp [scrape_reviews_api, collectReviews_nil_of_bad_first rf mp h]
  · intro h
    cases mp with
    | zero => rfl
    | succ n => simp [scrape_products_html, productsRun, productsGo, h]

/-- The C9 witness servers, each denying the first request. -/
def c9tf : Nat → TestimonialsPage := fun _ => ⟨403, []⟩

/-- Review server for the C9 witness. -/
def c9rf : Option String → GqlResponse := fun _ => ⟨403, false, [], false, none⟩

/-- Product server for the C9 witness. -/
def c9pf : Nat → ProductsPage := fun _ => ⟨404, []⟩

/-- Witness for C9: both API drivers raise on an empty run while the
product driver returns the empty list. -/
theorem empty_collection_behavior_witness :
    scrape_testimonials_api c9tf 50 = .error "KeyError: text" ∧
    scrape_reviews_api c9rf 50 = .error "KeyError: date, text" ∧
    scrape_products_html c9pf 50 = [] := by
  have h := empty_collection_behavior c9tf c9rf c9pf 50
  exact ⟨h.2.2.1 (by decide), h.2.2.2.1 (by decide), h.2.2.2.2 (by decide)⟩

